import Mathlib

/-!
Verification of the elinor ranking-evaluation library against its
natural-language specification.

The Python package under `elinor-py` supplies thin glue (pydantic record
types and an `evaluate` wrapper around the native extension
`elinor._lowlevel`) plus the test-suite; the metric computation engine and
the statistical testing engine are native code that is not part of this
source tree.  Accordingly, the glue is embedded directly from
`elinor/__init__.py`, while the engine operations are modelled from the
specification (each such definition carries a doc comment starting with
`Modelled from the spec:`).
-/

namespace Elinor

/-- `TrueRecord` from `elinor/__init__.py`: a frozen pydantic model with
`query_id : str`, `doc_id : str`, `score : int` (a relevance grade). -/
structure TrueRecord where
  query_id : String
  doc_id : String
  score : ℤ
  deriving DecidableEq

/-- `PredRecord` from `elinor/__init__.py`: a frozen pydantic model with
`query_id : str`, `doc_id : str`, `score : float` (modelled as `ℚ`). -/
structure PredRecord where
  query_id : String
  doc_id : String
  score : ℚ
  deriving DecidableEq

/-- `Evaluation` from `elinor/__init__.py`: metric name, per-query scores
mapping (a Python dict, modelled as an association list) and its mean. -/
structure Evaluation where
  metric : String
  scores : List (String × ℚ)
  mean : ℚ
  deriving DecidableEq

/-- Models Python's `statistics.mean`: raises `StatisticsError` on an empty
sequence (modelled as `Except.error`), else returns sum divided by length. -/
def pyMean (xs : List ℚ) : Except String ℚ :=
  if xs.isEmpty then .error "StatisticsError" else .ok (xs.sum / xs.length)

/-- Embedding of `evaluate` from `elinor/__init__.py`.  The per-query scores
come from `elinor._lowlevel.evaluate`, a native extension whose source is not
part of this tree, so the function is parametrised by that call's result
`scores`.  The wrapper then returns
`Evaluation(metric=metric, scores=scores, mean=statistics.mean(scores.values()))`. -/
def evaluate (metric : String) (scores : List (String × ℚ)) : Except String Evaluation :=
  match pyMean (scores.map Prod.snd) with
  | .error e => .error e
  | .ok m => .ok { metric := metric, scores := scores, mean := m }

/-- **C1.** `evaluate` returns an `Evaluation` whose `mean` field is the
arithmetic mean of the values of its per-query `scores` mapping: every entry
of the mapping, including zero-valued ones, counts toward the denominator. -/
theorem evaluate_mean_is_arithmetic_mean (metric : String)
    (scores : List (String × ℚ)) (h : scores ≠ []) :
    ∃ ev : Evaluation, evaluate metric scores = .ok ev ∧
      ev.scores = scores ∧ ev.metric = metric ∧
      ev.mean = (scores.map Prod.snd).sum / (scores.length : ℚ) := by
  have hne : ((scores.map Prod.snd).isEmpty) = false := by
    cases scores with
    | nil => exact absurd rfl h
    | cons a l => rfl
  refine ⟨{ metric := metric, scores := scores,
            mean := (scores.map Prod.snd).sum / (scores.length : ℚ) }, ?_, rfl, rfl, rfl⟩
  simp only [evaluate, pyMean, hne, Bool.false_eq_true, if_false, List.length_map]

/-- Witness for C1 at a concrete input containing a zero score. -/
theorem evaluate_mean_is_arithmetic_mean_witness :
    [(("q_1" : String), (1 : ℚ)), (("q_2" : String), (0 : ℚ))] ≠ [] ∧
      ∃ ev : Evaluation,
        evaluate "ndcg@3" [("q_1", (1 : ℚ)), ("q_2", (0 : ℚ))] = .ok ev ∧
        ev.scores = [("q_1", 1), ("q_2", 0)] ∧ ev.metric = "ndcg@3" ∧
        ev.mean = ([(("q_1" : String), (1 : ℚ)), ("q_2", 0)].map Prod.snd).sum /
          (([(("q_1" : String), (1 : ℚ)), ("q_2", 0)].length : ℚ)) :=
  ⟨by simp,
   evaluate_mean_is_arithmetic_mean "ndcg@3" [("q_1", 1), ("q_2", 0)] (by simp)⟩

/-- **C10.** When the per-query scores mapping produced for the requested
metric is empty, `evaluate` fails while computing the mean of an empty vector
(Python's `statistics.mean` raises) instead of returning a result, and every
`Evaluation` it does return has a non-empty scores mapping. -/
theorem evaluate_empty_scores_raises (metric : String) (scores : List (String × ℚ)) :
    (scores = [] → evaluate metric scores = .error "StatisticsError") ∧
      (∀ ev : Evaluation, evaluate metric scores = .ok ev → ev.scores ≠ []) := by
  constructor
  · rintro rfl
    rfl
  · intro ev hev
    cases scores with
    | nil => simp [evaluate, pyMean] at hev
    | cons a l =>
      have : ev.scores = a :: l := by
        simp only [evaluate, pyMean] at hev
        split at hev
        · exact absurd hev (by simp)
        · cases hev
          rfl
      simp [this]

/-- Witness for C10: evaluating with an empty scores mapping errors out. -/
theorem evaluate_empty_scores_raises_witness :
    evaluate "ndcg@3" ([] : List (String × ℚ)) = .error "StatisticsError" :=
  (evaluate_empty_scores_raises "ndcg@3" []).1 rfl

/-! ## Relevance and ranking model (spec §3, §4.1) -/

/-- Overwrite-insert into an association list: a later entry for the same key
replaces the earlier one (spec §3 uniqueness invariant for judgments). -/
def insertPair (m : List (String × ℤ)) (key : String) (v : ℤ) : List (String × ℤ) :=
  match m with
  | [] => [(key, v)]
  | (k, w) :: rest => if k = key then (k, v) :: rest else (k, w) :: insertPair rest key v

/-- Fold one judgment into the per-query map. -/
def insertJudgment (js : List (String × List (String × ℤ))) (r : TrueRecord) :
    List (String × List (String × ℤ)) :=
  match js with
  | [] => [(r.query_id, [(r.doc_id, r.score)])]
  | (q, docs) :: rest =>
    if q = r.query_id then (q, insertPair docs r.doc_id r.score) :: rest
    else (q, docs) :: insertJudgment rest r

/-- Modelled from the spec: building the `JudgmentSet` of the relevance model
(spec §4.1; the building code lives in the native extension, which is absent
from this tree).  It fails with `SchemaError` if any judgment grade is
negative; otherwise judgments are folded into a `query_id → doc_id → grade`
map where a later judgment for the same pair overwrites the earlier one. -/
def buildJudgmentSet (trues : List TrueRecord) :
    Except String (List (String × List (String × ℤ))) :=
  if trues.any (fun r => r.score < 0) then .error "SchemaError"
  else .ok (trues.foldl insertJudgment [])

/-- Modelled from the spec: a duplicate (query_id, doc_id) prediction is a
schema violation (spec §3, §4.1). -/
def hasDupPred : List PredRecord → Bool
  | [] => false
  | p :: rest =>
    rest.any (fun q => q.query_id == p.query_id && q.doc_id == p.doc_id) || hasDupPred rest

/-- Ranking order from the spec: score descending, ties by doc_id ascending. -/
def predBefore (a b : PredRecord) : Bool :=
  decide (b.score < a.score) || (a.score == b.score && decide (a.doc_id ≤ b.doc_id))

/-- Insertion step of the stable sort used for rankings. -/
def insertRanked (p : PredRecord) : List PredRecord → List PredRecord
  | [] => [p]
  | q :: rest => if predBefore p q then p :: q :: rest else q :: insertRanked p rest

/-- Modelled from the spec: the ranked list of a query is its predictions
sorted by score descending, ties broken by doc_id ascending (spec §3). -/
def rankingFor (preds : List PredRecord) (qid : String) : List PredRecord :=
  (preds.filter (fun p => p.query_id == qid)).foldr insertRanked []

/-- Grade of a document in a per-query judgment map; absent documents are
unjudged and contribute grade 0 (zero gain) to DCG. -/
def gradeOf (docs : List (String × ℤ)) (doc : String) : ℤ :=
  match docs.lookup doc with
  | some g => g
  | none => 0

/-- Descending insertion step for grade sorting. -/
def insertDesc (g : ℤ) : List ℤ → List ℤ
  | [] => [g]
  | h :: t => if h ≤ g then g :: h :: t else h :: insertDesc g t

/-- Judged grades sorted descending, for the ideal DCG. -/
def sortGradesDesc (gs : List ℤ) : List ℤ := gs.foldr insertDesc []

/-! ## The ndcg metric (spec §4.2) -/

/-- Modelled from the spec: discounted cumulative gain of a grade list read in
rank order (the head of the list has rank `rank`), with gain `2^grade - 1` and
discount `log₂(rank + 1)`. -/
noncomputable def dcgFrom (rank : ℕ) : List ℤ → ℝ
  | [] => 0
  | g :: gs => ((2 : ℝ) ^ g - 1) / Real.logb 2 ((rank : ℝ) + 1) + dcgFrom (rank + 1) gs

/-- DCG with ranks starting at 1. -/
noncomputable def dcg (gs : List ℤ) : ℝ := dcgFrom 1 gs

/-- Modelled from the spec: `ndcg@k` of one query — DCG of the retrieved
grades truncated at `k`, divided by the ideal DCG of the judged grades sorted
descending and truncated at `k` (0 when the ideal DCG is 0). -/
noncomputable def ndcgAt (k : ℕ) (judged : List (String × ℤ)) (ranked : List PredRecord) : ℝ :=
  let dcgVal := dcg ((ranked.take k).map (fun p => gradeOf judged p.doc_id))
  let idcg := dcg ((sortGradesDesc (judged.map Prod.snd)).take k)
  if idcg = 0 then 0 else dcgVal / idcg

/-- Modelled from the spec: the native engine's `ndcg@k` evaluation — build
the judgment set (`SchemaError` on a negative grade), reject duplicate
predictions, then score every query of the judgment set against its ranking. -/
noncomputable def lowlevelNdcg (k : ℕ) (trues : List TrueRecord) (preds : List PredRecord) :
    Except String (List (String × ℝ)) :=
  match buildJudgmentSet trues with
  | .error e => .error e
  | .ok js =>
    if hasDupPred preds then .error "SchemaError"
    else .ok (js.map (fun q => (q.1, ndcgAt k q.2 (rankingFor preds q.1))))

/-- Arithmetic mean of the per-query `ndcg@k` scores, as the `evaluate`
wrapper reports it (0 on an engine failure, where the wrapper raises). -/
noncomputable def ndcgMean (k : ℕ) (trues : List TrueRecord) (preds : List PredRecord) : ℝ :=
  match lowlevelNdcg k trues preds with
  | .error _ => 0
  | .ok scores => (scores.map Prod.snd).sum / scores.length

/-- **C9.** A judgment list containing a negative grade makes the relevance
model fail with `SchemaError`, and with it any evaluation over that list. -/
theorem negative_grade_schema_error (trues : List TrueRecord) (preds : List PredRecord)
    (k : ℕ) (h : ∃ r ∈ trues, r.score < 0) :
    buildJudgmentSet trues = .error "SchemaError" ∧
      lowlevelNdcg k trues preds = .error "SchemaError" := by
  have hany : (trues.any (fun r => r.score < 0)) = true := by
    rcases h with ⟨r, hr, hneg⟩
    exact List.any_eq_true.mpr ⟨r, hr, by simpa using hneg⟩
  have hb : buildJudgmentSet trues = .error "SchemaError" := by
    simp [buildJudgmentSet, hany]
  exact ⟨hb, by simp [lowlevelNdcg, hb]⟩

/-- Witness for C9 at a concrete one-record judgment list with grade −1. -/
theorem negative_grade_schema_error_witness :
    (∃ r ∈ [TrueRecord.mk "q_1" "d_1" (-1)], r.score < 0) ∧
      buildJudgmentSet [TrueRecord.mk "q_1" "d_1" (-1)] = .error "SchemaError" ∧
        lowlevelNdcg 3 [TrueRecord.mk "q_1" "d_1" (-1)] [] = .error "SchemaError" :=
  ⟨⟨TrueRecord.mk "q_1" "d_1" (-1), by simp, by norm_num⟩,
   negative_grade_schema_error [TrueRecord.mk "q_1" "d_1" (-1)] [] 3
     ⟨TrueRecord.mk "q_1" "d_1" (-1), by simp, by norm_num⟩⟩

/-! ## The ndcg@3 fixture (spec §8, `tests/test_elinor.py`) -/

/-- The fixture judgment set `{q1: {d1:1, d2:0, d3:2}, q2: {d2:2, d4:1}}`. -/
def fixtureTrue : List TrueRecord :=
  [⟨"q_1", "d_1", 1⟩, ⟨"q_1", "d_2", 0⟩, ⟨"q_1", "d_3", 2⟩,
   ⟨"q_2", "d_2", 2⟩, ⟨"q_2", "d_4", 1⟩]

/-- The fixture prediction set
`{q1: [(d1,0.5),(d2,0.4),(d3,0.3)], q2: [(d4,0.1),(d1,0.2),(d3,0.3)]}`. -/
def fixturePred : List PredRecord :=
  [⟨"q_1", "d_1", 0.5⟩, ⟨"q_1", "d_2", 0.4⟩, ⟨"q_1", "d_3", 0.3⟩,
   ⟨"q_2", "d_4", 0.1⟩, ⟨"q_2", "d_1", 0.2⟩, ⟨"q_2", "d_3", 0.3⟩]

lemma fixture_judgment_set :
    buildJudgmentSet fixtureTrue =
      .ok [("q_1", [("d_1", 1), ("d_2", 0), ("d_3", 2)]), ("q_2", [("d_2", 2), ("d_4", 1)])] := by
  norm_num +decide [buildJudgmentSet, fixtureTrue, insertJudgment, insertPair]

lemma fixture_ranking_q1 :
    rankingFor fixturePred "q_1" =
      [⟨"q_1", "d_1", 0.5⟩, ⟨"q_1", "d_2", 0.4⟩, ⟨"q_1", "d_3", 0.3⟩] := by
  norm_num +decide [rankingFor, fixturePred, List.filter_cons, List.filter_nil,
    insertRanked, predBefore]

lemma fixture_ranking_q2 :
    rankingFor fixturePred "q_2" =
      [⟨"q_2", "d_3", 0.3⟩, ⟨"q_2", "d_1", 0.2⟩, ⟨"q_2", "d_4", 0.1⟩] := by
  norm_num +decide [rankingFor, fixturePred, List.filter_cons, List.filter_nil,
    insertRanked, predBefore]

lemma fixture_grades_q1 :
    ((rankingFor fixturePred "q_1").take 3).map
        (fun p => gradeOf [("d_1", (1 : ℤ)), ("d_2", 0), ("d_3", 2)] p.doc_id) = [1, 0, 2] := by
  rw [fixture_ranking_q1]
  decide

lemma fixture_grades_q2 :
    ((rankingFor fixturePred "q_2").take 3).map
        (fun p => gradeOf [("d_2", (2 : ℤ)), ("d_4", 1)] p.doc_id) = [0, 0, 1] := by
  rw [fixture_ranking_q2]
  decide

lemma fixture_ideal_q1 :
    (sortGradesDesc ([("d_1", (1 : ℤ)), ("d_2", 0), ("d_3", 2)].map Prod.snd)).take 3 =
      [2, 1, 0] := by
  decide

lemma fixture_ideal_q2 :
    (sortGradesDesc ([("d_2", (2 : ℤ)), ("d_4", 1)].map Prod.snd)).take 3 = [2, 1] := by
  decide

lemma logb_two_two : Real.logb 2 2 = 1 := Real.logb_self_eq_one (by norm_num)

lemma logb_two_four : Real.logb 2 4 = 2 := by
  rw [show (4 : ℝ) = 2 ^ (2 : ℕ) by norm_num, Real.logb_pow, logb_two_two]
  norm_num

lemma logb_two_three_pos : 0 < Real.logb 2 3 :=
  Real.logb_pos (by norm_num) (by norm_num)

lemma dcg_retrieved_q1 : dcg [1, 0, 2] = 5 / 2 := by
  simp only [dcg, dcgFrom]
  norm_num [logb_two_two, logb_two_four]

lemma dcg_retrieved_q2 : dcg [0, 0, 1] = 1 / 2 := by
  simp only [dcg, dcgFrom]
  norm_num [logb_two_two, logb_two_four]

lemma dcg_ideal_q1 : dcg [2, 1, 0] = 3 + 1 / Real.logb 2 3 := by
  simp only [dcg, dcgFrom]
  norm_num [logb_two_two, logb_two_four]

lemma dcg_ideal_q2 : dcg [2, 1] = 3 + 1 / Real.logb 2 3 := by
  simp only [dcg, dcgFrom]
  norm_num [logb_two_two]

lemma ideal_dcg_pos : 0 < 3 + 1 / Real.logb 2 3 := by
  have h := logb_two_three_pos
  positivity

/-- The fixture mean of `ndcg@3` in closed form. -/
lemma ndcgMean_fixture_eq :
    ndcgMean 3 fixtureTrue fixturePred = 3 / (2 * (3 + 1 / Real.logb 2 3)) := by
  have hdup : hasDupPred fixturePred = false := by decide
  have hnd1 :
      ndcgAt 3 [("d_1", (1 : ℤ)), ("d_2", 0), ("d_3", 2)] (rankingFor fixturePred "q_1") =
        (5 / 2) / (3 + 1 / Real.logb 2 3) := by
    simp only [ndcgAt, fixture_grades_q1, fixture_ideal_q1, dcg_retrieved_q1, dcg_ideal_q1,
      if_neg (ne_of_gt ideal_dcg_pos)]
  have hnd2 :
      ndcgAt 3 [("d_2", (2 : ℤ)), ("d_4", 1)] (rankingFor fixturePred "q_2") =
        (1 / 2) / (3 + 1 / Real.logb 2 3) := by
    simp only [ndcgAt, fixture_grades_q2, fixture_ideal_q2, dcg_retrieved_q2, dcg_ideal_q2,
      if_neg (ne_of_gt ideal_dcg_pos)]
  have hll :
      lowlevelNdcg 3 fixtureTrue fixturePred =
        .ok [("q_1", (5 / 2) / (3 + 1 / Real.logb 2 3)),
             ("q_2", (1 / 2) / (3 + 1 / Real.logb 2 3))] := by
    rw [lowlevelNdcg, fixture_judgment_set]
    simp only [hdup, Bool.false_eq_true, if_false, List.map_cons, List.map_nil]
    rw [hnd1, hnd2]
  rw [ndcgMean, hll]
  simp only [List.map_cons, List.map_nil, List.sum_cons, List.sum_nil, List.length_cons,
    List.length_nil]
  have h0 : (3 + 1 / Real.logb 2 3) ≠ 0 := ne_of_gt ideal_dcg_pos
  field_simp
  ring

/-- **C2, counterexample.** On the fixture judgment and prediction sets, the
modelled `ndcg@3` (gain `2^grade − 1`, discount `log₂(rank+1)`, ideal DCG from
the judged grades sorted descending) does **not** yield mean 0.5. -/
theorem ndcg_fixture_mean_ne_half : ndcgMean 3 fixtureTrue fixturePred ≠ 1 / 2 := by
  rw [ndcgMean_fixture_eq]
  have hL := logb_two_three_pos
  have hx : 0 < 1 / Real.logb 2 3 := by positivity
  have h6 : (6 : ℝ) < 2 * (3 + 1 / Real.logb 2 3) := by nlinarith
  have : 3 / (2 * (3 + 1 / Real.logb 2 3)) < 1 / 2 := by
    rw [div_lt_div_iff₀ (by linarith) (by norm_num)]
    nlinarith
  exact ne_of_lt this

/-- **C2, amended.** Evaluating `ndcg@3` on the fixture with the spec's
formula yields mean `3 / (2·(3 + 1/log₂ 3))` ≈ 0.4131, which is strictly
below the 0.5 stated by the spec. -/
theorem ndcg_fixture_mean_closed_form :
    ndcgMean 3 fixtureTrue fixturePred = 3 / (2 * (3 + 1 / Real.logb 2 3)) ∧
      ndcgMean 3 fixtureTrue fixturePred < 1 / 2 := by
  refine ⟨ndcgMean_fixture_eq, ?_⟩
  rw [ndcgMean_fixture_eq]
  have hL := logb_two_three_pos
  have hx : 0 < 1 / Real.logb 2 3 := by positivity
  rw [div_lt_div_iff₀ (by nlinarith) (by norm_num)]
  nlinarith

/-! ## Two-way ANOVA without replication (spec §4.3) -/

namespace TwoWayAnovaWithoutReplication

/-- Scores of system `i` across all topics (rows are topics, columns systems). -/
def systemScores (samples : List (List ℝ)) (i : ℕ) : List ℝ :=
  samples.map (fun row => row.getD i 0)

/-- Modelled from the spec: the mean score of system `i` over the topics. -/
noncomputable def system_mean (samples : List (List ℝ)) (i : ℕ) : ℝ :=
  (systemScores samples i).sum / samples.length

/-- Modelled from the spec: the mean score of one topic over the `S` systems. -/
noncomputable def topic_mean (row : List ℝ) (S : ℕ) : ℝ := row.sum / S

/-- Modelled from the spec: the grand mean of all `S × n` scores. -/
noncomputable def grand_mean (samples : List (List ℝ)) (S : ℕ) : ℝ :=
  (samples.map List.sum).sum / (S * samples.length)

/-- Modelled from the spec: between-system variation — sum of squared
deviations of the system means from the grand mean, scaled by the topic
count `n`. -/
noncomputable def between_system_variation (samples : List (List ℝ)) (S : ℕ) : ℝ :=
  (samples.length : ℝ) *
    ((List.range S).map (fun i => (system_mean samples i - grand_mean samples S) ^ 2)).sum

/-- Modelled from the spec: between-topic variation — sum of squared
deviations of the topic means from the grand mean, scaled by `S`. -/
noncomputable def between_topic_variation (samples : List (List ℝ)) (S : ℕ) : ℝ :=
  (S : ℝ) * (samples.map (fun row => (topic_mean row S - grand_mean samples S) ^ 2)).sum

/-- Modelled from the spec: total variation — sum of squared deviations of
every score from the grand mean. -/
noncomputable def total_variation (samples : List (List ℝ)) (S : ℕ) : ℝ :=
  (samples.map (fun row => ((row.map (fun x => (x - grand_mean samples S) ^ 2)).sum))).sum

/-- Modelled from the spec: residual variation = total − between-system −
between-topic. -/
noncomputable def residual_variation (samples : List (List ℝ)) (S : ℕ) : ℝ :=
  total_variation samples S - between_system_variation samples S -
    between_topic_variation samples S

/-- Modelled from the spec: between-system variance = variation / (S − 1). -/
noncomputable def between_system_variance (samples : List (List ℝ)) (S : ℕ) : ℝ :=
  between_system_variation samples S / ((S : ℝ) - 1)

/-- Modelled from the spec: between-topic variance = variation / (n − 1). -/
noncomputable def between_topic_variance (samples : List (List ℝ)) (S : ℕ) : ℝ :=
  between_topic_variation samples S / ((samples.length : ℝ) - 1)

/-- Modelled from the spec: residual variance = variation / ((S−1)(n−1)). -/
noncomputable def residual_variance (samples : List (List ℝ)) (S : ℕ) : ℝ :=
  residual_variation samples S / (((S : ℝ) - 1) * ((samples.length : ℝ) - 1))

end TwoWayAnovaWithoutReplication

open TwoWayAnovaWithoutReplication in
/-- **C5.** For a valid `S`-system × `n`-topic sample, every ANOVA variance
times its degrees of freedom gives back the corresponding variation, and the
residual variation is total minus between-system minus between-topic. -/
theorem anova_variance_df_roundtrip (samples : List (List ℝ)) (S : ℕ)
    (hS : 2 ≤ S) (hn : 2 ≤ samples.length) :
    between_system_variance samples S * ((S : ℝ) - 1) =
        between_system_variation samples S ∧
      between_topic_variance samples S * ((samples.length : ℝ) - 1) =
        between_topic_variation samples S ∧
      residual_variance samples S * (((S : ℝ) - 1) * ((samples.length : ℝ) - 1)) =
        residual_variation samples S ∧
      residual_variation samples S =
        total_variation samples S - between_system_variation samples S -
          between_topic_variation samples S := by
  have hS' : (1 : ℝ) < (S : ℝ) := by exact_mod_cast lt_of_lt_of_le one_lt_two hS
  have hn' : (1 : ℝ) < (samples.length : ℝ) := by
    exact_mod_cast lt_of_lt_of_le one_lt_two hn
  have hS0 : (S : ℝ) - 1 ≠ 0 := by linarith
  have hn0 : (samples.length : ℝ) - 1 ≠ 0 := by linarith
  refine ⟨div_mul_cancel₀ _ hS0, div_mul_cancel₀ _ hn0,
    div_mul_cancel₀ _ (mul_ne_zero hS0 hn0), rfl⟩

/-- Witness for C5 at a concrete 2-system × 2-topic sample. -/
theorem anova_variance_df_roundtrip_witness :
    2 ≤ 2 ∧ 2 ≤ [[(0 : ℝ), 1], [1, 0]].length ∧
      (TwoWayAnovaWithoutReplication.between_system_variance [[(0 : ℝ), 1], [1, 0]] 2 *
            ((2 : ℝ) - 1) =
          TwoWayAnovaWithoutReplication.between_system_variation [[(0 : ℝ), 1], [1, 0]] 2 ∧
        TwoWayAnovaWithoutReplication.between_topic_variance [[(0 : ℝ), 1], [1, 0]] 2 *
            (([[(0 : ℝ), 1], [1, 0]].length : ℝ) - 1) =
          TwoWayAnovaWithoutReplication.between_topic_variation [[(0 : ℝ), 1], [1, 0]] 2 ∧
        TwoWayAnovaWithoutReplication.residual_variance [[(0 : ℝ), 1], [1, 0]] 2 *
            (((2 : ℝ) - 1) * (([[(0 : ℝ), 1], [1, 0]].length : ℝ) - 1)) =
          TwoWayAnovaWithoutReplication.residual_variation [[(0 : ℝ), 1], [1, 0]] 2 ∧
        TwoWayAnovaWithoutReplication.residual_variation [[(0 : ℝ), 1], [1, 0]] 2 =
          TwoWayAnovaWithoutReplication.total_variation [[(0 : ℝ), 1], [1, 0]] 2 -
            TwoWayAnovaWithoutReplication.between_system_variation [[(0 : ℝ), 1], [1, 0]] 2 -
            TwoWayAnovaWithoutReplication.between_topic_variation [[(0 : ℝ), 1], [1, 0]] 2) :=
  ⟨le_refl 2, by norm_num,
    anova_variance_df_roundtrip [[(0 : ℝ), 1], [1, 0]] 2 (le_refl 2) (by norm_num)⟩

/-! ## Tukey HSD test, closed form (spec §4.3) -/

namespace TukeyHsdTest

open TwoWayAnovaWithoutReplication

/-- Modelled from the spec: the studentized-range-based effect size for the
system pair `(i, j)` — `(mean_i − mean_j) / sqrt(MSE / n)` with `MSE` the
two-way ANOVA residual variance. -/
noncomputable def effect_size (samples : List (List ℝ)) (S i j : ℕ) : ℝ :=
  (system_mean samples i - system_mean samples j) /
    Real.sqrt (residual_variance samples S / samples.length)

/-- Modelled from the spec: the S×S matrix of pairwise effect sizes. -/
noncomputable def effect_sizes (samples : List (List ℝ)) (S : ℕ) : List (List ℝ) :=
  (List.range S).map (fun i => (List.range S).map (fun j => effect_size samples S i j))

end TukeyHsdTest

open TukeyHsdTest in
/-- **C6.** The closed-form Tukey HSD test returns an S×S matrix whose
`(i, j)` entry is `(mean_i − mean_j)/sqrt(MSE/n)`; the matrix is antisymmetric
with an exactly zero diagonal. -/
theorem tukey_hsd_antisymmetric_zero_diagonal (samples : List (List ℝ)) (S : ℕ) :
    (effect_sizes samples S).length = S ∧
      (∀ row ∈ effect_sizes samples S, row.length = S) ∧
      (∀ i j : ℕ, i < S → j < S →
        ((effect_sizes samples S).getD i []).getD j 0 = effect_size samples S i j) ∧
      (∀ i j : ℕ, effect_size samples S i j = -effect_size samples S j i) ∧
      (∀ i : ℕ, effect_size samples S i i = 0) := by
  refine ⟨by simp [effect_sizes], ?_, ?_, ?_, ?_⟩
  · intro row hrow
    rcases List.mem_map.mp hrow with ⟨i, _, rfl⟩
    simp
  · intro i j hi hj
    simp [effect_sizes, List.getD_eq_getElem?_getD, List.getElem?_map,
      List.getElem?_range hi, List.getElem?_range hj]
  · intro i j
    rw [effect_size, effect_size, ← neg_div, neg_sub]
  · intro i
    rw [effect_size, sub_self, zero_div]

/-! ## Bootstrap test and randomized Tukey HSD test (spec §4.3) -/

/-- Mean of the per-pair differences `aᵢ − bᵢ` of a paired sample. -/
noncomputable def meanDiff (s : List (ℝ × ℝ)) : ℝ :=
  ((s.map (fun p => p.1 - p.2)).sum) / s.length

/-- Modelled from the spec: a bootstrap test holds the paired samples and a
resample count. -/
structure BootstrapTest where
  samples : List (ℝ × ℝ)
  n_resamples : ℕ

/-- Modelled from the spec: `BootstrapTest(paired_samples)` — constructed
without an explicit resample count the test uses the fixed count 10000. -/
def BootstrapTest.ofSamples (s : List (ℝ × ℝ)) : BootstrapTest := ⟨s, 10000⟩

/-- Number of topics of a bootstrap test. -/
def BootstrapTest.n_topics (t : BootstrapTest) : ℕ := t.samples.length

/-- Modelled from the spec: the mean difference of one resample, drawn with
replacement from the paired samples; the draw is the explicit index list. -/
noncomputable def resampleMeanDiff (s : List (ℝ × ℝ)) (idxs : List ℕ) : ℝ :=
  ((idxs.map (fun i => (s.getD i (0, 0)).1 - (s.getD i (0, 0)).2)).sum) / idxs.length

/-- Modelled from the spec: the bootstrap p-value is the fraction of
resamples whose mean difference, re-centred at the null hypothesis of equal
systems, is at least as extreme as the observed mean difference.  The drawn
resamples are the explicit `draws` argument (one index list per resample). -/
noncomputable def BootstrapTest.p_value (t : BootstrapTest) (draws : List (List ℕ)) : ℝ :=
  ((draws.filter (fun d =>
      decide (|meanDiff t.samples| ≤ |resampleMeanDiff t.samples d - meanDiff t.samples|))).length
    : ℝ) / draws.length

/-- A counted fraction lies in `[0, 1]` (also when the total is zero). -/
lemma count_fraction_mem_unit {count total : ℕ} (h : count ≤ total) :
    0 ≤ (count : ℝ) / total ∧ (count : ℝ) / total ≤ 1 := by
  rcases Nat.eq_zero_or_pos total with h0 | hpos
  · subst h0
    interval_cases count
    norm_num
  · have htotal : (0 : ℝ) < total := by exact_mod_cast hpos
    constructor
    · positivity
    · rw [div_le_one htotal]
      exact_mod_cast h

namespace RandomizedTukeyHsdTest

open TwoWayAnovaWithoutReplication

/-- One topic row relabeled by a permutation of the system indices. -/
def permutedRow (row : List ℝ) (perm : List ℕ) : List ℝ :=
  perm.map (fun j => row.getD j 0)

/-- Modelled from the spec: one randomization trial independently permutes,
per topic, the assignment of the observed scores to the system labels. -/
def permutedSamples (samples : List (List ℝ)) (perms : List (List ℕ)) : List (List ℝ) :=
  List.zipWith permutedRow samples perms

/-- Observed mean difference of systems `i` and `j`. -/
noncomputable def sysMeanDiff (samples : List (List ℝ)) (i j : ℕ) : ℝ :=
  system_mean samples i - system_mean samples j

/-- Modelled from the spec: the randomized Tukey HSD p-value for the pair
`(i, j)` is the fraction of trials whose permuted mean-difference magnitude
meets or exceeds the observed one; `trials` is the explicit randomness (one
list of per-topic permutations per trial). -/
noncomputable def p_value (samples : List (List ℝ)) (trials : List (List (List ℕ)))
    (i j : ℕ) : ℝ :=
  ((trials.filter (fun tr =>
      decide (|sysMeanDiff samples i j| ≤ |sysMeanDiff (permutedSamples samples tr) i j|))).length
    : ℝ) / trials.length

/-- Modelled from the spec: the S×S matrix of pairwise p-values. -/
noncomputable def p_values (samples : List (List ℝ)) (trials : List (List (List ℕ)))
    (S : ℕ) : List (List ℝ) :=
  (List.range S).map (fun i => (List.range S).map (fun j => p_value samples trials i j))

end RandomizedTukeyHsdTest

open RandomizedTukeyHsdTest in
/-- **C7.** Every bootstrap p-value lies in `[0, 1]`, and the randomized
Tukey HSD test returns an S×S matrix of p-values each of which lies in
`[0, 1]`, whatever the drawn randomness. -/
theorem resampling_p_values_in_unit_interval (t : BootstrapTest) (draws : List (List ℕ))
    (samples : List (List ℝ)) (trials : List (List (List ℕ))) (S i j : ℕ)
    (hi : i < S) (hj : j < S) :
    (0 ≤ t.p_value draws ∧ t.p_value draws ≤ 1) ∧
      (p_values samples trials S).length = S ∧
      (∀ row ∈ p_values samples trials S, row.length = S) ∧
      ((p_values samples trials S).getD i []).getD j 0 = p_value samples trials i j ∧
      (0 ≤ p_value samples trials i j ∧ p_value samples trials i j ≤ 1) := by
  refine ⟨?_, by simp [p_values], ?_, ?_, ?_⟩
  · exact count_fraction_mem_unit (List.length_filter_le _ _)
  · intro row hrow
    rcases List.mem_map.mp hrow with ⟨a, _, rfl⟩
    simp
  · simp [p_values, List.getD_eq_getElem?_getD, List.getElem?_map,
      List.getElem?_range hi, List.getElem?_range hj]
  · exact count_fraction_mem_unit (List.length_filter_le _ _)

/-- Witness for C7 at a concrete bootstrap test, sample and matrix index. -/
theorem resampling_p_values_in_unit_interval_witness :
    (0 : ℕ) < 2 ∧ (1 : ℕ) < 2 ∧
      ((0 ≤ (BootstrapTest.ofSamples [((1 : ℝ), 0)]).p_value [[0], [0]] ∧
          (BootstrapTest.ofSamples [((1 : ℝ), 0)]).p_value [[0], [0]] ≤ 1) ∧
        (RandomizedTukeyHsdTest.p_values [[(0 : ℝ), 1]] [[[1, 0]]] 2).length = 2 ∧
        (∀ row ∈ RandomizedTukeyHsdTest.p_values [[(0 : ℝ), 1]] [[[1, 0]]] 2,
          row.length = 2) ∧
        ((RandomizedTukeyHsdTest.p_values [[(0 : ℝ), 1]] [[[1, 0]]] 2).getD 0 []).getD 1 0 =
          RandomizedTukeyHsdTest.p_value [[(0 : ℝ), 1]] [[[1, 0]]] 0 1 ∧
        (0 ≤ RandomizedTukeyHsdTest.p_value [[(0 : ℝ), 1]] [[[1, 0]]] 0 1 ∧
          RandomizedTukeyHsdTest.p_value [[(0 : ℝ), 1]] [[[1, 0]]] 0 1 ≤ 1)) :=
  ⟨by norm_num, by norm_num,
    resampling_p_values_in_unit_interval (BootstrapTest.ofSamples [((1 : ℝ), 0)])
      [[0], [0]] [[(0 : ℝ), 1]] [[[1, 0]]] 2 0 1 (by norm_num) (by norm_num)⟩

/-- **C8.** A bootstrap test constructed without an explicit resample count
uses exactly 10000 resamples. -/
theorem bootstrap_default_n_resamples (s : List (ℝ × ℝ)) :
    (BootstrapTest.ofSamples s).n_resamples = 10000 := rfl

/-! ## Student's paired t-test (spec §4.3) -/

namespace StudentTTest

/-- Modelled from the spec: the number of paired topics. -/
def n_topics (s : List (ℝ × ℝ)) : ℕ := s.length

/-- Modelled from the spec: mean of the per-pair differences `dᵢ = aᵢ − bᵢ`. -/
noncomputable def mean (s : List (ℝ × ℝ)) : ℝ := meanDiff s

/-- Modelled from the spec: sample variance of the differences with the
`(n − 1)` divisor. -/
noncomputable def variance (s : List (ℝ × ℝ)) : ℝ :=
  ((s.map (fun p => (p.1 - p.2 - mean s) ^ 2)).sum) / ((s.length : ℝ) - 1)

/-- Modelled from the spec: effect size `mean / sqrt(variance)`. -/
noncomputable def effect_size (s : List (ℝ × ℝ)) : ℝ :=
  mean s / Real.sqrt (variance s)

/-- Modelled from the spec: t statistic `mean / sqrt(variance / n)`. -/
noncomputable def t_stat (s : List (ℝ × ℝ)) : ℝ :=
  mean s / Real.sqrt (variance s / s.length)

/-- Modelled from the spec: the density of Student's t-distribution with `ν`
degrees of freedom,
`Γ((ν+1)/2) / (√(νπ) Γ(ν/2)) · (1 + x²/ν)^(−(ν+1)/2)`. -/
noncomputable def studentTDensity (ν : ℝ) (x : ℝ) : ℝ :=
  Real.Gamma ((ν + 1) / 2) / (Real.sqrt (ν * Real.pi) * Real.Gamma (ν / 2)) *
    (1 + x ^ 2 / ν) ^ (-((ν + 1) / 2))

/-- Modelled from the spec: the two-tailed probability from Student's
t-distribution with `ν` degrees of freedom evaluated at `|t|`, i.e.
`P(|T| ≥ |t|) = 2 ∫_{|t|}^∞ f_ν` by the symmetry of the density. -/
noncomputable def studentTPValue (ν t : ℝ) : ℝ :=
  2 * ∫ x in Set.Ioi |t|, studentTDensity ν x

/-- Modelled from the spec: p-value of the test, with `ν = n − 1`. -/
noncomputable def p_value (s : List (ℝ × ℝ)) : ℝ :=
  studentTPValue ((s.length : ℝ) - 1) (t_stat s)

/-- Modelled from the spec: the two-sided critical value `critical-t(α, ν)`
of Student's t-distribution — the smallest nonnegative point whose two-sided
tail probability is at most `α`. -/
noncomputable def criticalT (ν α : ℝ) : ℝ :=
  sInf {c : ℝ | 0 ≤ c ∧ studentTPValue ν c ≤ α}

/-- Modelled from the spec:
`margin_of_error(α) = critical-t(α, n−1) × sqrt(variance / n)`. -/
noncomputable def margin_of_error (s : List (ℝ × ℝ)) (α : ℝ) : ℝ :=
  criticalT ((s.length : ℝ) - 1) α * Real.sqrt (variance s / s.length)

/-- Modelled from the spec:
`confidence_interval(α) = (mean − margin, mean + margin)`. -/
noncomputable def confidence_interval (s : List (ℝ × ℝ)) (α : ℝ) : ℝ × ℝ :=
  (mean s - margin_of_error s α, mean s + margin_of_error s α)

end StudentTTest

/-- The 20-topic paired fixture from Table 5.1 of Sakai's book, used by
`tests/statistical_tests/test_student_t_test.py`. -/
def sakai : List (ℝ × ℝ) :=
  [(0.70, 0.50), (0.30, 0.10), (0.20, 0.00), (0.60, 0.20), (0.40, 0.40),
   (0.40, 0.30), (0.00, 0.00), (0.70, 0.50), (0.10, 0.30), (0.30, 0.30),
   (0.50, 0.40), (0.40, 0.40), (0.00, 0.10), (0.60, 0.40), (0.50, 0.20),
   (0.30, 0.10), (0.10, 0.10), (0.50, 0.60), (0.20, 0.30), (0.10, 0.20)]

lemma sakai_length : sakai.length = 20 := by simp [sakai]

lemma sakai_mean : StudentTTest.mean sakai = 3 / 40 := by
  simp only [StudentTTest.mean, meanDiff, sakai]
  norm_num

lemma sakai_variance : StudentTTest.variance sakai = 191 / 7600 := by
  rw [StudentTTest.variance, sakai_mean, sakai_length]
  simp only [sakai]
  norm_num

/-- Bracket a square root between two rationals via its square. -/
lemma sqrt_bracket {v lo hi : ℝ} (hlo : 0 ≤ lo) (h1 : lo ^ 2 < v) (h2 : v < hi ^ 2)
    (hhi : 0 < hi) : lo < Real.sqrt v ∧ Real.sqrt v < hi :=
  ⟨(Real.lt_sqrt hlo).mpr h1, (Real.sqrt_lt' hhi).mpr h2⟩

lemma sakai_sqrt_variance_bounds :
    (0.1585294 : ℝ) < Real.sqrt (191 / 7600) ∧
      Real.sqrt (191 / 7600) < 0.1585295 :=
  sqrt_bracket (by norm_num) (by norm_num) (by norm_num) (by norm_num)

lemma sakai_sqrt_variance_div_bounds :
    (0.03544825 : ℝ) < Real.sqrt (191 / 152000) ∧
      Real.sqrt (191 / 152000) < 0.03544826 :=
  sqrt_bracket (by norm_num) (by norm_num) (by norm_num) (by norm_num)

lemma sakai_effect_size_bounds : |StudentTTest.effect_size sakai - 0.473| ≤ 1 / 1000 := by
  have hb := sakai_sqrt_variance_bounds
  have hpos : (0 : ℝ) < Real.sqrt (191 / 7600) := lt_trans (by norm_num) hb.1
  rw [StudentTTest.effect_size, sakai_mean, sakai_variance, abs_le]
  constructor
  · rw [le_sub_iff_add_le, le_div_iff₀ hpos]
    nlinarith [hb.2]
  · rw [sub_le_iff_le_add, div_le_iff₀ hpos]
    nlinarith [hb.1]

lemma sakai_t_stat_eq :
    StudentTTest.t_stat sakai = (3 / 40) / Real.sqrt (191 / 152000) := by
  rw [StudentTTest.t_stat, sakai_mean, sakai_variance, sakai_length]
  norm_num

lemma sakai_t_stat_bounds : |StudentTTest.t_stat sakai - 2.116| ≤ 1 / 1000 := by
  have hb := sakai_sqrt_variance_div_bounds
  have hpos : (0 : ℝ) < Real.sqrt (191 / 152000) := lt_trans (by norm_num) hb.1
  rw [sakai_t_stat_eq, abs_le]
  constructor
  · rw [le_sub_iff_add_le, le_div_iff₀ hpos]
    nlinarith [hb.2]
  · rw [sub_le_iff_le_add, div_le_iff₀ hpos]
    nlinarith [hb.1]

/-! ### The t-distribution with 19 degrees of freedom: explicit antiderivative

The density with 19 degrees of freedom is a constant times
`(1 + y²/19)⁻¹⁰`, whose antiderivative is elementary: a rational multiple of
`arctan` plus a rational function.  This gives the exact tail integral needed
for the p-value of the fixture. -/

/-- Elementary antiderivative of `y ↦ ((1 + y²)¹⁰)⁻¹`. -/
noncomputable def tAntideriv (y : ℝ) : ℝ :=
  (12155 / 65536) * Real.arctan y +
    y * (53381 / 65536 + (399041 / 98304) * y ^ 2 + (355283 / 32768) * y ^ 4 +
        (4108169 / 229376) * y ^ 6 + (2431 / 126) * y ^ 8 +
        (3133559 / 229376) * y ^ 10 + (201773 / 32768) * y ^ 12 +
        (158015 / 98304) * y ^ 14 + (12155 / 65536) * y ^ 16) /
      (1 + y ^ 2) ^ 9

set_option maxHeartbeats 1000000 in
lemma hasDerivAt_tAntideriv (y : ℝ) :
    HasDerivAt tAntideriv (((1 + y ^ 2) ^ 10)⁻¹) y := by
  have hden : ((1 + y ^ 2) ^ 9 : ℝ) ≠ 0 := by positivity
  have hpoly : HasDerivAt (fun y : ℝ =>
      53381 / 65536 + (399041 / 98304) * y ^ 2 + (355283 / 32768) * y ^ 4 +
        (4108169 / 229376) * y ^ 6 + (2431 / 126) * y ^ 8 +
        (3133559 / 229376) * y ^ 10 + (201773 / 32768) * y ^ 12 +
        (158015 / 98304) * y ^ 14 + (12155 / 65536) * y ^ 16)
      ((399041 / 98304) * (2 * y ^ 1) + (355283 / 32768) * (4 * y ^ 3) +
        (4108169 / 229376) * (6 * y ^ 5) + (2431 / 126) * (8 * y ^ 7) +
        (3133559 / 229376) * (10 * y ^ 9) + (201773 / 32768) * (12 * y ^ 11) +
        (158015 / 98304) * (14 * y ^ 13) + (12155 / 65536) * (16 * y ^ 15)) y := by
    have h2 := (hasDerivAt_pow 2 y).const_mul (399041 / 98304 : ℝ)
    have h4 := (hasDerivAt_pow 4 y).const_mul (355283 / 32768 : ℝ)
    have h6 := (hasDerivAt_pow 6 y).const_mul (4108169 / 229376 : ℝ)
    have h8 := (hasDerivAt_pow 8 y).const_mul (2431 / 126 : ℝ)
    have h10 := (hasDerivAt_pow 10 y).const_mul (3133559 / 229376 : ℝ)
    have h12 := (hasDerivAt_pow 12 y).const_mul (201773 / 32768 : ℝ)
    have h14 := (hasDerivAt_pow 14 y).const_mul (158015 / 98304 : ℝ)
    have h16 := (hasDerivAt_pow 16 y).const_mul (12155 / 65536 : ℝ)
    have hc : HasDerivAt (fun _ : ℝ => (53381 / 65536 : ℝ)) 0 y := hasDerivAt_const y _
    have := (((((((hc.add h2).add h4).add h6).add h8).add h10).add h12).add h14).add h16
    convert this using 1
    push_cast
    ring
  have hnum : HasDerivAt (fun y : ℝ =>
      y * (53381 / 65536 + (399041 / 98304) * y ^ 2 + (355283 / 32768) * y ^ 4 +
        (4108169 / 229376) * y ^ 6 + (2431 / 126) * y ^ 8 +
        (3133559 / 229376) * y ^ 10 + (201773 / 32768) * y ^ 12 +
        (158015 / 98304) * y ^ 14 + (12155 / 65536) * y ^ 16))
      (1 * (53381 / 65536 + (399041 / 98304) * y ^ 2 + (355283 / 32768) * y ^ 4 +
        (4108169 / 229376) * y ^ 6 + (2431 / 126) * y ^ 8 +
        (3133559 / 229376) * y ^ 10 + (201773 / 32768) * y ^ 12 +
        (158015 / 98304) * y ^ 14 + (12155 / 65536) * y ^ 16) +
       y * ((399041 / 98304) * (2 * y ^ 1) + (355283 / 32768) * (4 * y ^ 3) +
        (4108169 / 229376) * (6 * y ^ 5) + (2431 / 126) * (8 * y ^ 7) +
        (3133559 / 229376) * (10 * y ^ 9) + (201773 / 32768) * (12 * y ^ 11) +
        (158015 / 98304) * (14 * y ^ 13) + (12155 / 65536) * (16 * y ^ 15))) y :=
    (hasDerivAt_id y).mul hpoly
  have hbase : HasDerivAt (fun y : ℝ => 1 + y ^ 2) (2 * y) y := by
    simpa using (hasDerivAt_pow 2 y).const_add 1
  have hdenD : HasDerivAt (fun y : ℝ => (1 + y ^ 2) ^ 9)
      ((9 : ℕ) * (1 + y ^ 2) ^ 8 * (2 * y)) y := hbase.pow 9
  have hfrac := hnum.div hdenD hden
  have harct := (Real.hasDerivAt_arctan y).const_mul (12155 / 65536 : ℝ)
  have hsum := harct.add hfrac
  have h1y : (1 + y ^ 2 : ℝ) ≠ 0 := by positivity
  convert hsum using 1
  field_simp
  ring

/-- `Γ(19/2) = (34459425/512)·√π`. -/
lemma gamma_nineteen_halves :
    Real.Gamma (19 / 2) = (34459425 / 512) * Real.sqrt Real.pi := by
  rw [show (19 : ℝ) / 2 = 17 / 2 + 1 by norm_num, Real.Gamma_add_one (by norm_num)]
  rw [show (17 : ℝ) / 2 = 15 / 2 + 1 by norm_num, Real.Gamma_add_one (by norm_num)]
  rw [show (15 : ℝ) / 2 = 13 / 2 + 1 by norm_num, Real.Gamma_add_one (by norm_num)]
  rw [show (13 : ℝ) / 2 = 11 / 2 + 1 by norm_num, Real.Gamma_add_one (by norm_num)]
  rw [show (11 : ℝ) / 2 = 9 / 2 + 1 by norm_num, Real.Gamma_add_one (by norm_num)]
  rw [show (9 : ℝ) / 2 = 7 / 2 + 1 by norm_num, Real.Gamma_add_one (by norm_num)]
  rw [show (7 : ℝ) / 2 = 5 / 2 + 1 by norm_num, Real.Gamma_add_one (by norm_num)]
  rw [show (5 : ℝ) / 2 = 3 / 2 + 1 by norm_num, Real.Gamma_add_one (by norm_num)]
  rw [show (3 : ℝ) / 2 = 1 / 2 + 1 by norm_num, Real.Gamma_add_one (by norm_num)]
  rw [Real.Gamma_one_half_eq]
  ring

/-- `Γ(10) = 9! = 362880`. -/
lemma gamma_ten : Real.Gamma 10 = 362880 := by
  rw [show (10 : ℝ) = ((9 : ℕ) : ℝ) + 1 by norm_num, Real.Gamma_nat_eq_factorial]
  norm_num [Nat.factorial]

/-- The t density with 19 degrees of freedom in closed rational form. -/
lemma studentTDensity_nineteen (x : ℝ) :
    StudentTTest.studentTDensity 19 x =
      (65536 / 12155) * (1 / Real.pi) * (1 / Real.sqrt 19) * ((1 + x ^ 2 / 19) ^ 10)⁻¹ := by
  have hbase : (0 : ℝ) < 1 + x ^ 2 / 19 := by positivity
  rw [StudentTTest.studentTDensity]
  rw [show ((19 : ℝ) + 1) / 2 = 10 by norm_num]
  rw [gamma_ten, gamma_nineteen_halves]
  rw [Real.sqrt_mul (by norm_num : (0 : ℝ) ≤ 19)]
  rw [Real.rpow_neg hbase.le]
  rw [show (10 : ℝ) = ((10 : ℕ) : ℝ) by norm_num, Real.rpow_natCast]
  have hπ : Real.sqrt Real.pi * Real.sqrt Real.pi = Real.pi :=
    Real.mul_self_sqrt Real.pi_pos.le
  have h19 : Real.sqrt 19 ≠ 0 :=
    ne_of_gt (Real.sqrt_pos.mpr (by norm_num))
  have hπ' : Real.sqrt Real.pi ≠ 0 :=
    ne_of_gt (Real.sqrt_pos.mpr Real.pi_pos)
  rw [show Real.sqrt 19 * Real.sqrt Real.pi * ((34459425 / 512) * Real.sqrt Real.pi) =
      (34459425 / 512) * Real.pi * Real.sqrt 19 from by
    linear_combination (Real.sqrt 19 * (34459425 / 512)) * hπ]
  have hX : ((1 + x ^ 2 / 19) ^ 10 : ℝ) ≠ 0 := by positivity
  field_simp
  ring_nf

/-- Antiderivative of the t density with 19 degrees of freedom. -/
noncomputable def tCDFpart (x : ℝ) : ℝ :=
  (65536 / 12155) * (1 / Real.pi) * tAntideriv (x / Real.sqrt 19)

lemma hasDerivAt_tCDFpart (x : ℝ) :
    HasDerivAt tCDFpart (StudentTTest.studentTDensity 19 x) x := by
  have h19 : (0 : ℝ) < Real.sqrt 19 := Real.sqrt_pos.mpr (by norm_num)
  have hx : HasDerivAt (fun x : ℝ => x / Real.sqrt 19) (1 / Real.sqrt 19) x := by
    simpa using (hasDerivAt_id x).div_const (Real.sqrt 19)
  have hcomp := (hasDerivAt_tAntideriv (x / Real.sqrt 19)).comp x hx
  have hfinal := hcomp.const_mul ((65536 / 12155) * (1 / Real.pi) : ℝ)
  rw [studentTDensity_nineteen]
  have hxsq : (x / Real.sqrt 19) ^ 2 = x ^ 2 / 19 := by
    rw [div_pow, Real.sq_sqrt (by norm_num : (0 : ℝ) ≤ 19)]
  convert hfinal using 1
  rw [hxsq]
  ring

lemma tendsto_tAntideriv_atTop :
    Filter.Tendsto tAntideriv Filter.atTop
      (nhds ((12155 / 65536) * (Real.pi / 2))) := by
  have harc : Filter.Tendsto (fun y : ℝ => (12155 / 65536) * Real.arctan y)
      Filter.atTop (nhds ((12155 / 65536) * (Real.pi / 2))) :=
    (Real.tendsto_arctan_atTop.mono_right nhdsWithin_le_nhds).const_mul _
  have hrat : Filter.Tendsto (fun y : ℝ =>
      y * (53381 / 65536 + (399041 / 98304) * y ^ 2 + (355283 / 32768) * y ^ 4 +
        (4108169 / 229376) * y ^ 6 + (2431 / 126) * y ^ 8 +
        (3133559 / 229376) * y ^ 10 + (201773 / 32768) * y ^ 12 +
        (158015 / 98304) * y ^ 14 + (12155 / 65536) * y ^ 16) / (1 + y ^ 2) ^ 9)
      Filter.atTop (nhds 0) := by
    have hK : Filter.Tendsto (fun y : ℝ => (75 : ℝ) / y) Filter.atTop (nhds 0) :=
      Filter.Tendsto.div_atTop tendsto_const_nhds Filter.tendsto_id
    refine tendsto_of_tendsto_of_tendsto_of_le_of_le' tendsto_const_nhds hK ?_ ?_
    · filter_upwards [Filter.eventually_ge_atTop (1 : ℝ)] with y hy
      have hy0 : (0 : ℝ) ≤ y := le_trans zero_le_one hy
      apply div_nonneg (mul_nonneg hy0 (by positivity)) (by positivity)
    · filter_upwards [Filter.eventually_ge_atTop (1 : ℝ)] with y hy
      have hy0 : (0 : ℝ) < y := lt_of_lt_of_le zero_lt_one hy
      rw [div_le_div_iff₀ (by positivity) hy0]
      have p2 : y ^ 2 ≤ y ^ 18 := pow_le_pow_right₀ hy (by norm_num)
      have p4 : y ^ 4 ≤ y ^ 18 := pow_le_pow_right₀ hy (by norm_num)
      have p6 : y ^ 6 ≤ y ^ 18 := pow_le_pow_right₀ hy (by norm_num)
      have p8 : y ^ 8 ≤ y ^ 18 := pow_le_pow_right₀ hy (by norm_num)
      have p10 : y ^ 10 ≤ y ^ 18 := pow_le_pow_right₀ hy (by norm_num)
      have p12 : y ^ 12 ≤ y ^ 18 := pow_le_pow_right₀ hy (by norm_num)
      have p14 : y ^ 14 ≤ y ^ 18 := pow_le_pow_right₀ hy (by norm_num)
      have p16 : y ^ 16 ≤ y ^ 18 := pow_le_pow_right₀ hy (by norm_num)
      have p18 : y ^ 18 ≤ y ^ 18 := le_refl _
      have h18 : y ^ 18 ≤ (1 + y ^ 2) ^ 9 := by
        have : (y ^ 2) ^ 9 ≤ (1 + y ^ 2) ^ 9 :=
          pow_le_pow_left₀ (sq_nonneg y) (by linarith) 9
        calc y ^ 18 = (y ^ 2) ^ 9 := by ring
          _ ≤ (1 + y ^ 2) ^ 9 := this
      nlinarith [p2, p4, p6, p8, p10, p12, p14, p16, h18]
  have := harc.add hrat
  simpa using this

lemma tendsto_tCDFpart_atTop :
    Filter.Tendsto tCDFpart Filter.atTop (nhds (1 / 2)) := by
  have h19 : (0 : ℝ) < Real.sqrt 19 := Real.sqrt_pos.mpr (by norm_num)
  have hcomp : Filter.Tendsto (fun x : ℝ => x / Real.sqrt 19) Filter.atTop Filter.atTop :=
    Filter.Tendsto.atTop_div_const h19 Filter.tendsto_id
  have hval : ((65536 / 12155) * (1 / Real.pi)) * ((12155 / 65536) * (Real.pi / 2)) =
      (1 / 2 : ℝ) := by
    field_simp
  have h := (tendsto_tAntideriv_atTop.comp hcomp).const_mul
    ((65536 / 12155) * (1 / Real.pi) : ℝ)
  rw [hval] at h
  exact h

lemma continuous_studentTDensity_nineteen :
    Continuous (StudentTTest.studentTDensity 19) := by
  have heq : StudentTTest.studentTDensity 19 = fun x =>
      (65536 / 12155) * (1 / Real.pi) * (1 / Real.sqrt 19) * ((1 + x ^ 2 / 19) ^ 10)⁻¹ :=
    funext studentTDensity_nineteen
  rw [heq]
  refine continuous_const.mul (Continuous.inv₀ ?_ ?_)
  · exact ((continuous_const.add ((continuous_pow 2).div_const 19)).pow 10)
  · intro x
    positivity

lemma integrableOn_studentTDensity_nineteen {a : ℝ} (ha : 1 ≤ a) :
    MeasureTheory.IntegrableOn (StudentTTest.studentTDensity 19) (Set.Ioi a) := by
  have ha0 : (0 : ℝ) < a := lt_of_lt_of_le zero_lt_one ha
  have hg : MeasureTheory.IntegrableOn
      (fun x : ℝ => ((65536 / 12155) * (1 / Real.pi) * (1 / Real.sqrt 19) * 19 ^ 10) *
        x ^ (-2 : ℝ)) (Set.Ioi a) :=
    (integrableOn_Ioi_rpow_of_lt (by norm_num) ha0).const_mul _
  refine MeasureTheory.Integrable.mono' hg
    (continuous_studentTDensity_nineteen.aestronglyMeasurable.restrict) ?_
  rw [MeasureTheory.ae_restrict_iff' measurableSet_Ioi]
  refine Filter.Eventually.of_forall (fun x hx => ?_)
  have hx1 : 1 ≤ x := le_trans ha (le_of_lt hx)
  have hx0 : (0 : ℝ) < x := lt_of_lt_of_le zero_lt_one hx1
  have hc : (0 : ℝ) < (65536 / 12155) * (1 / Real.pi) * (1 / Real.sqrt 19) := by
    have := Real.pi_pos
    have : (0 : ℝ) < Real.sqrt 19 := Real.sqrt_pos.mpr (by norm_num)
    positivity
  rw [studentTDensity_nineteen, Real.norm_eq_abs, abs_of_nonneg (by positivity)]
  have hrpow : x ^ (-2 : ℝ) = (x ^ 2)⁻¹ := by
    rw [show (-2 : ℝ) = ((-2 : ℤ) : ℝ) by norm_num, Real.rpow_intCast, zpow_neg,
      show (2 : ℤ) = ((2 : ℕ) : ℤ) by norm_num, zpow_natCast]
  rw [hrpow, mul_assoc ((65536 / 12155) * (1 / Real.pi) * (1 / Real.sqrt 19)) _ _]
  apply mul_le_mul_of_nonneg_left _ hc.le
  have h20 : x ^ 2 ≤ x ^ 20 := pow_le_pow_right₀ hx1 (by norm_num)
  have hkey : (x ^ 20 / 19 ^ 10 : ℝ) ≤ (1 + x ^ 2 / 19) ^ 10 := by
    have : (x ^ 2 / 19) ^ 10 ≤ (1 + x ^ 2 / 19) ^ 10 :=
      pow_le_pow_left₀ (by positivity) (by nlinarith [sq_nonneg x]) 10
    calc (x ^ 20 / 19 ^ 10 : ℝ) = (x ^ 2 / 19) ^ 10 := by ring
      _ ≤ (1 + x ^ 2 / 19) ^ 10 := this
  have h1 : ((1 + x ^ 2 / 19) ^ 10 : ℝ)⁻¹ ≤ (x ^ 20 / 19 ^ 10)⁻¹ := by
    apply inv_anti₀ (by positivity) hkey
  calc ((1 + x ^ 2 / 19) ^ 10 : ℝ)⁻¹ ≤ (x ^ 20 / 19 ^ 10)⁻¹ := h1
    _ = 19 ^ 10 * (x ^ 20)⁻¹ := by field_simp
    _ ≤ 19 ^ 10 * (x ^ 2)⁻¹ := by
        apply mul_le_mul_of_nonneg_left _ (by positivity)
        exact inv_anti₀ (by positivity) h20

/-- Exact tail integral of the t density with 19 degrees of freedom. -/
lemma integral_Ioi_studentTDensity {a : ℝ} (ha : 1 ≤ a) :
    ∫ x in Set.Ioi a, StudentTTest.studentTDensity 19 x = 1 / 2 - tCDFpart a :=
  MeasureTheory.integral_Ioi_of_hasDerivAt_of_tendsto'
    (fun x _ => hasDerivAt_tCDFpart x) (integrableOn_studentTDensity_nineteen ha)
    tendsto_tCDFpart_atTop

/-! ### Numeric bounds on `arctan` via its alternating series -/

lemma arctan_ge_poly {x : ℝ} (hx : 0 ≤ x) :
    x - x ^ 3 / 3 + x ^ 5 / 5 - x ^ 7 / 7 ≤ Real.arctan x := by
  have H : ∀ t : ℝ, HasDerivAt
      (fun t : ℝ => Real.arctan t - (t - t ^ 3 / 3 + t ^ 5 / 5 - t ^ 7 / 7))
      (1 / (1 + t ^ 2) - (1 - t ^ 2 + t ^ 4 - t ^ 6)) t := by
    intro t
    have hp : HasDerivAt (fun t : ℝ => t - t ^ 3 / 3 + t ^ 5 / 5 - t ^ 7 / 7)
        (1 - t ^ 2 + t ^ 4 - t ^ 6) t := by
      have h1 := hasDerivAt_id t
      have h3 := (hasDerivAt_pow 3 t).div_const 3
      have h5 := (hasDerivAt_pow 5 t).div_const 5
      have h7 := (hasDerivAt_pow 7 t).div_const 7
      have := ((h1.sub h3).add h5).sub h7
      convert this using 1
      push_cast
      ring
    exact (Real.hasDerivAt_arctan t).sub hp
  have hmono : Monotone
      (fun t : ℝ => Real.arctan t - (t - t ^ 3 / 3 + t ^ 5 / 5 - t ^ 7 / 7)) := by
    refine monotone_of_deriv_nonneg (fun t => (H t).differentiableAt) (fun t => ?_)
    rw [(H t).deriv]
    have h0 : (0 : ℝ) < 1 + t ^ 2 := by positivity
    have he : 1 / (1 + t ^ 2) - (1 - t ^ 2 + t ^ 4 - t ^ 6) = t ^ 8 / (1 + t ^ 2) := by
      field_simp
      ring
    rw [he]
    positivity
  have hkey := hmono hx
  simp only [Real.arctan_zero] at hkey
  norm_num at hkey
  linarith

lemma arctan_le_poly {x : ℝ} (hx : 0 ≤ x) :
    Real.arctan x ≤ x - x ^ 3 / 3 + x ^ 5 / 5 - x ^ 7 / 7 + x ^ 9 / 9 := by
  have H : ∀ t : ℝ, HasDerivAt
      (fun t : ℝ => t - t ^ 3 / 3 + t ^ 5 / 5 - t ^ 7 / 7 + t ^ 9 / 9 - Real.arctan t)
      (1 - t ^ 2 + t ^ 4 - t ^ 6 + t ^ 8 - 1 / (1 + t ^ 2)) t := by
    intro t
    have hp : HasDerivAt
        (fun t : ℝ => t - t ^ 3 / 3 + t ^ 5 / 5 - t ^ 7 / 7 + t ^ 9 / 9)
        (1 - t ^ 2 + t ^ 4 - t ^ 6 + t ^ 8) t := by
      have h1 := hasDerivAt_id t
      have h3 := (hasDerivAt_pow 3 t).div_const 3
      have h5 := (hasDerivAt_pow 5 t).div_const 5
      have h7 := (hasDerivAt_pow 7 t).div_const 7
      have h9 := (hasDerivAt_pow 9 t).div_const 9
      have := (((h1.sub h3).add h5).sub h7).add h9
      convert this using 1
      push_cast
      ring
    exact hp.sub (Real.hasDerivAt_arctan t)
  have hmono : Monotone
      (fun t : ℝ => t - t ^ 3 / 3 + t ^ 5 / 5 - t ^ 7 / 7 + t ^ 9 / 9 - Real.arctan t) := by
    refine monotone_of_deriv_nonneg (fun t => (H t).differentiableAt) (fun t => ?_)
    rw [(H t).deriv]
    have h0 : (0 : ℝ) < 1 + t ^ 2 := by positivity
    have he : 1 - t ^ 2 + t ^ 4 - t ^ 6 + t ^ 8 - 1 / (1 + t ^ 2) =
        t ^ 10 / (1 + t ^ 2) := by
      field_simp
      ring
    rw [he]
    positivity
  have hkey := hmono hx
  simp only [Real.arctan_zero] at hkey
  norm_num at hkey
  linarith

/-! ### p-value of the Sakai fixture -/

lemma sakai_t_stat_sq : StudentTTest.t_stat sakai ^ 2 = 855 / 191 := by
  rw [sakai_t_stat_eq, div_pow, Real.sq_sqrt (by norm_num : (0 : ℝ) ≤ 191 / 152000)]
  norm_num

lemma sakai_t_stat_pos : 0 < StudentTTest.t_stat sakai := by
  have hb := sakai_t_stat_bounds
  rw [abs_le] at hb
  have := hb.1
  norm_num at this ⊢
  linarith

lemma sakai_t_stat_ge_one : 1 ≤ StudentTTest.t_stat sakai := by
  have hb := sakai_t_stat_bounds
  rw [abs_le] at hb
  have := hb.1
  norm_num at this ⊢
  linarith

lemma sakai_p_value_eq :
    StudentTTest.p_value sakai = 1 - 2 * tCDFpart (StudentTTest.t_stat sakai) := by
  rw [StudentTTest.p_value, sakai_length]
  rw [show ((20 : ℕ) : ℝ) - 1 = 19 by norm_num]
  rw [StudentTTest.studentTPValue, abs_of_pos sakai_t_stat_pos,
    integral_Ioi_studentTDensity sakai_t_stat_ge_one]
  ring

lemma sakai_x0_sq : (StudentTTest.t_stat sakai / Real.sqrt 19) ^ 2 = 45 / 191 := by
  rw [div_pow, sakai_t_stat_sq, Real.sq_sqrt (by norm_num : (0 : ℝ) ≤ 19)]
  norm_num

lemma sakai_x0_pos : 0 < StudentTTest.t_stat sakai / Real.sqrt 19 :=
  div_pos sakai_t_stat_pos (Real.sqrt_pos.mpr (by norm_num))

/-- Bracket a positive real between rationals via its square. -/
lemma sq_bracket {x lo hi : ℝ} (hx : 0 < x) (hlo : 0 ≤ lo) (h1 : lo ^ 2 < x ^ 2)
    (h2 : x ^ 2 < hi ^ 2) (hhi : 0 < hi) : lo < x ∧ x < hi :=
  ⟨by nlinarith, by nlinarith⟩

lemma sakai_x0_bounds :
    (0.4853886 : ℝ) < StudentTTest.t_stat sakai / Real.sqrt 19 ∧
      StudentTTest.t_stat sakai / Real.sqrt 19 < 0.48538861 := by
  refine sq_bracket sakai_x0_pos (by norm_num) ?_ ?_ (by norm_num) <;>
    rw [sakai_x0_sq] <;> norm_num

/-- The fixture value of `tAntideriv` at `x₀ = t/√19`, using `x₀² = 45/191`. -/
lemma sakai_tAntideriv_eq :
    tAntideriv (StudentTTest.t_stat sakai / Real.sqrt 19) =
      (12155 / 65536) * Real.arctan (StudentTTest.t_stat sakai / Real.sqrt 19) +
        (StudentTTest.t_stat sakai / Real.sqrt 19) *
          ((53381 / 65536 + (399041 / 98304) * (45 / 191) +
            (355283 / 32768) * (45 / 191) ^ 2 + (4108169 / 229376) * (45 / 191) ^ 3 +
            (2431 / 126) * (45 / 191) ^ 4 + (3133559 / 229376) * (45 / 191) ^ 5 +
            (201773 / 32768) * (45 / 191) ^ 6 + (158015 / 98304) * (45 / 191) ^ 7 +
            (12155 / 65536) * (45 / 191) ^ 8) / (236 / 191) ^ 9) := by
  set y := StudentTTest.t_stat sakai / Real.sqrt 19 with hy
  have h2 : y ^ 2 = 45 / 191 := sakai_x0_sq
  have h4 : y ^ 4 = (45 / 191) ^ 2 := by rw [show y ^ 4 = (y ^ 2) ^ 2 by ring, h2]
  have h6 : y ^ 6 = (45 / 191) ^ 3 := by rw [show y ^ 6 = (y ^ 2) ^ 3 by ring, h2]
  have h8 : y ^ 8 = (45 / 191) ^ 4 := by rw [show y ^ 8 = (y ^ 2) ^ 4 by ring, h2]
  have h10 : y ^ 10 = (45 / 191) ^ 5 := by rw [show y ^ 10 = (y ^ 2) ^ 5 by ring, h2]
  have h12 : y ^ 12 = (45 / 191) ^ 6 := by rw [show y ^ 12 = (y ^ 2) ^ 6 by ring, h2]
  have h14 : y ^ 14 = (45 / 191) ^ 7 := by rw [show y ^ 14 = (y ^ 2) ^ 7 by ring, h2]
  have h16 : y ^ 16 = (45 / 191) ^ 8 := by rw [show y ^ 16 = (y ^ 2) ^ 8 by ring, h2]
  rw [tAntideriv, h2, h4, h6, h8, h10, h12, h14, h16]
  norm_num
  rw [mul_div_assoc]
  congr 1
  norm_num

/-- Numeric bounds on `arctan x₀` for the fixture. -/
lemma sakai_arctan_bounds :
    (0.45174 : ℝ) ≤ Real.arctan (StudentTTest.t_stat sakai / Real.sqrt 19) ∧
      Real.arctan (StudentTTest.t_stat sakai / Real.sqrt 19) ≤ 0.45193 := by
  set y := StudentTTest.t_stat sakai / Real.sqrt 19 with hy
  have hypos : 0 < y := sakai_x0_pos
  have h2 : y ^ 2 = 45 / 191 := sakai_x0_sq
  have h3 : y ^ 3 = (45 / 191) * y := by rw [show y ^ 3 = y ^ 2 * y by ring, h2]
  have h5 : y ^ 5 = (45 / 191) ^ 2 * y := by
    rw [show y ^ 5 = (y ^ 2) ^ 2 * y by ring, h2]
  have h7 : y ^ 7 = (45 / 191) ^ 3 * y := by
    rw [show y ^ 7 = (y ^ 2) ^ 3 * y by ring, h2]
  have h9 : y ^ 9 = (45 / 191) ^ 4 * y := by
    rw [show y ^ 9 = (y ^ 2) ^ 4 * y by ring, h2]
  have hb := sakai_x0_bounds
  constructor
  · have hlo := arctan_ge_poly hypos.le
    rw [h3, h5, h7] at hlo
    nlinarith [hb.1, hb.2]
  · have hhi := arctan_le_poly hypos.le
    rw [h3, h5, h7, h9] at hhi
    nlinarith [hb.1, hb.2]

set_option maxHeartbeats 1000000 in
/-- The fixture p-value is 0.048 up to the stated tolerance 10⁻³. -/
lemma sakai_p_value_bounds : |StudentTTest.p_value sakai - 0.048| ≤ 1 / 1000 := by
  rw [sakai_p_value_eq, tCDFpart, sakai_tAntideriv_eq]
  set y := StudentTTest.t_stat sakai / Real.sqrt 19 with hy
  set Q : ℝ := (53381 / 65536 + (399041 / 98304) * (45 / 191) +
      (355283 / 32768) * (45 / 191) ^ 2 + (4108169 / 229376) * (45 / 191) ^ 3 +
      (2431 / 126) * (45 / 191) ^ 4 + (3133559 / 229376) * (45 / 191) ^ 5 +
      (201773 / 32768) * (45 / 191) ^ 6 + (158015 / 98304) * (45 / 191) ^ 7 +
      (12155 / 65536) * (45 / 191) ^ 8) / (236 / 191) ^ 9 with hQdef
  set θ := Real.arctan y with hθ
  have hybnd := sakai_x0_bounds
  have hθbnd := sakai_arctan_bounds
  have hπlo : (3.141592 : ℝ) < Real.pi := Real.pi_gt_d6
  have hπhi : Real.pi < 3.141593 := Real.pi_lt_d6
  have hπpos : (0 : ℝ) < Real.pi := Real.pi_pos
  have hR : (2.15049 : ℝ) < (65536 / 12155) * Q ∧ ((65536 / 12155) : ℝ) * Q < 2.15050 := by
    rw [hQdef]
    norm_num
  have hform : 1 - 2 * ((65536 / 12155) * (1 / Real.pi) *
      ((12155 / 65536) * θ + y * Q)) =
      1 - 2 * (θ + (65536 / 12155) * Q * y) / Real.pi := by
    field_simp
    ring
  rw [hform]
  have hy0 : (0 : ℝ) < y := sakai_x0_pos
  have hR0 : (0 : ℝ) ≤ (65536 / 12155) * Q := by linarith [hR.1]
  have hRy_lo : (2.15049 : ℝ) * 0.4853886 < ((65536 / 12155) * Q) * y :=
    mul_lt_mul'' hR.1 hybnd.1 (by norm_num) (by norm_num)
  have hRy_hi : ((65536 / 12155) * Q) * y < 2.15050 * 0.48538861 :=
    mul_lt_mul'' hR.2 hybnd.2 hR0 hy0.le
  have hM_lo : (1.49556 : ℝ) ≤ θ + (65536 / 12155) * Q * y := by
    nlinarith [hθbnd.1, hRy_lo]
  have hM_hi : θ + (65536 / 12155) * Q * y ≤ 1.49580 := by
    nlinarith [hθbnd.2, hRy_hi]
  have hfrac_lo : (2 * 1.49556) / 3.141593 ≤
      2 * (θ + (65536 / 12155) * Q * y) / Real.pi := by
    apply div_le_div₀ (by linarith) (by linarith) hπpos hπhi.le
  have hfrac_hi : 2 * (θ + (65536 / 12155) * Q * y) / Real.pi ≤
      (2 * 1.49580) / 3.141592 := by
    apply div_le_div₀ (by norm_num) (by linarith) (by norm_num) hπlo.le
  rw [abs_le]
  constructor
  · nlinarith [hfrac_hi]
  · nlinarith [hfrac_lo]

/-- **C3.** The Student's paired t-test computes `dᵢ = aᵢ − bᵢ`,
`mean = avg(d)`, the sample variance with `(n−1)` divisor,
`effect_size = mean/√variance` and `t_stat = mean/√(variance/n)`; on the
20-pair Sakai fixture it yields mean 0.0750, variance 0.0251, effect size
0.473, t statistic 2.116 and two-tailed p-value 0.048, to the stated
tolerances. -/
theorem student_t_test_formulas_and_fixture (s : List (ℝ × ℝ)) (_hs : 2 ≤ s.length) :
    (StudentTTest.mean s = ((s.map (fun p => p.1 - p.2)).sum) / s.length ∧
      StudentTTest.variance s =
        ((s.map (fun p => (p.1 - p.2 - StudentTTest.mean s) ^ 2)).sum) /
          ((s.length : ℝ) - 1) ∧
      StudentTTest.effect_size s =
        StudentTTest.mean s / Real.sqrt (StudentTTest.variance s) ∧
      StudentTTest.t_stat s =
        StudentTTest.mean s / Real.sqrt (StudentTTest.variance s / s.length)) ∧
    |StudentTTest.mean sakai - 0.0750| ≤ 1 / 10000 ∧
    |StudentTTest.variance sakai - 0.0251| ≤ 1 / 10000 ∧
    |StudentTTest.effect_size sakai - 0.473| ≤ 1 / 1000 ∧
    |StudentTTest.t_stat sakai - 2.116| ≤ 1 / 1000 ∧
    |StudentTTest.p_value sakai - 0.048| ≤ 1 / 1000 := by
  refine ⟨⟨rfl, rfl, rfl, rfl⟩, ?_, ?_, sakai_effect_size_bounds, sakai_t_stat_bounds,
    sakai_p_value_bounds⟩
  · rw [sakai_mean]
    norm_num
  · rw [sakai_variance, abs_le]
    constructor <;> norm_num

/-- Witness for C3 at the Sakai fixture itself. -/
theorem student_t_test_formulas_and_fixture_witness :
    2 ≤ sakai.length ∧
      ((StudentTTest.mean sakai = ((sakai.map (fun p => p.1 - p.2)).sum) / sakai.length ∧
        StudentTTest.variance sakai =
          ((sakai.map (fun p => (p.1 - p.2 - StudentTTest.mean sakai) ^ 2)).sum) /
            ((sakai.length : ℝ) - 1) ∧
        StudentTTest.effect_size sakai =
          StudentTTest.mean sakai / Real.sqrt (StudentTTest.variance sakai) ∧
        StudentTTest.t_stat sakai =
          StudentTTest.mean sakai / Real.sqrt (StudentTTest.variance sakai / sakai.length)) ∧
      |StudentTTest.mean sakai - 0.0750| ≤ 1 / 10000 ∧
      |StudentTTest.variance sakai - 0.0251| ≤ 1 / 10000 ∧
      |StudentTTest.effect_size sakai - 0.473| ≤ 1 / 1000 ∧
      |StudentTTest.t_stat sakai - 2.116| ≤ 1 / 1000 ∧
      |StudentTTest.p_value sakai - 0.048| ≤ 1 / 1000) :=
  ⟨by rw [sakai_length]; norm_num,
   student_t_test_formulas_and_fixture sakai (by rw [sakai_length]; norm_num)⟩

/-! ### Normalization of the t density (for the critical value)

For each natural number of degrees of freedom `ν = k + 1 ≥ 1`, the density
integrates to `1/2` over `(0, ∞)`.  This follows by the substitution
`x = √ν tan θ` and the Wallis-style closed form of `∫ cosᵐ`. -/

/-- `∫ cosᵐ` over `[0, π/2]` in terms of the Gamma function. -/
lemma integral_cos_pow_eq_gamma (m : ℕ) :
    ∫ θ in (0 : ℝ)..(Real.pi / 2), Real.cos θ ^ m =
      Real.sqrt Real.pi * Real.Gamma (((m : ℝ) + 1) / 2) /
        (2 * Real.Gamma ((m : ℝ) / 2 + 1)) := by
  have hπs : Real.sqrt Real.pi ≠ 0 := ne_of_gt (Real.sqrt_pos.mpr Real.pi_pos)
  induction m using Nat.strong_induction_on with
  | _ m ih =>
    match m with
    | 0 =>
      simp only [pow_zero, Nat.cast_zero]
      rw [intervalIntegral.integral_const]
      rw [show ((0 : ℝ) + 1) / 2 = 1 / 2 by norm_num, Real.Gamma_one_half_eq]
      rw [show ((0 : ℝ)) / 2 + 1 = 1 by norm_num, Real.Gamma_one]
      rw [show Real.sqrt Real.pi * Real.sqrt Real.pi / (2 * 1) =
          Real.pi / 2 from by rw [Real.mul_self_sqrt Real.pi_pos.le]; ring]
      simp
    | 1 =>
      simp only [pow_one, Nat.cast_one]
      rw [integral_cos, Real.sin_pi_div_two, Real.sin_zero]
      rw [show ((1 : ℝ) + 1) / 2 = 1 by norm_num, Real.Gamma_one]
      rw [show ((1 : ℝ)) / 2 + 1 = 1 / 2 + 1 by norm_num,
        Real.Gamma_add_one (by norm_num : (1 / 2 : ℝ) ≠ 0), Real.Gamma_one_half_eq]
      field_simp
    | (k + 2) =>
      have hJ := ih k (by omega)
      rw [integral_cos_pow]
      rw [Real.cos_pi_div_two, Real.sin_pi_div_two, Real.cos_zero, Real.sin_zero]
      rw [zero_pow (Nat.succ_ne_zero k), hJ]
      have hk2 : ((k : ℝ) + 2 + 1) / 2 = ((k : ℝ) + 1) / 2 + 1 := by ring
      have hk2' : ((k : ℝ) + 2) / 2 + 1 = ((k : ℝ) / 2 + 1) + 1 := by ring
      push_cast
      rw [hk2, hk2']
      rw [Real.Gamma_add_one (by positivity : ((k : ℝ) + 1) / 2 ≠ 0)]
      rw [Real.Gamma_add_one (by positivity : (k : ℝ) / 2 + 1 ≠ 0)]
      have hΓ : Real.Gamma ((k : ℝ) / 2 + 1) ≠ 0 :=
        ne_of_gt (Real.Gamma_pos_of_pos (by positivity))
      field_simp
      ring

lemma continuous_studentTDensity {ν : ℝ} (hν : 0 < ν) :
    Continuous (StudentTTest.studentTDensity ν) := by
  unfold StudentTTest.studentTDensity
  apply continuous_const.mul
  apply Continuous.rpow_const
  · exact continuous_const.add ((continuous_pow 2).div_const ν)
  · intro x
    left
    positivity

lemma image_sqrt_tan {ν : ℝ} (hν : 0 < ν) :
    (fun θ : ℝ => Real.sqrt ν * Real.tan θ) '' Set.Ioo 0 (Real.pi / 2) = Set.Ioi 0 := by
  have hs : (0 : ℝ) < Real.sqrt ν := Real.sqrt_pos.mpr hν
  ext y
  simp only [Set.mem_image, Set.mem_Ioo, Set.mem_Ioi]
  constructor
  · rintro ⟨θ, ⟨h0, h2⟩, rfl⟩
    exact mul_pos hs (Real.tan_pos_of_pos_of_lt_pi_div_two h0 h2)
  · intro hy
    refine ⟨Real.arctan (y / Real.sqrt ν), ⟨?_, Real.arctan_lt_pi_div_two _⟩, ?_⟩
    · have h := Real.arctan_strictMono (div_pos hy hs)
      rwa [Real.arctan_zero] at h
    · rw [Real.tan_arctan, mul_comm, div_mul_cancel₀ _ (ne_of_gt hs)]

lemma hasDerivWithinAt_sqrt_tan {ν : ℝ} :
    ∀ θ ∈ Set.Ioo (0 : ℝ) (Real.pi / 2),
      HasDerivWithinAt (fun θ : ℝ => Real.sqrt ν * Real.tan θ)
        (Real.sqrt ν * (1 / Real.cos θ ^ 2)) (Set.Ioo 0 (Real.pi / 2)) θ := by
  intro θ hθ
  have hcos : 0 < Real.cos θ :=
    Real.cos_pos_of_mem_Ioo ⟨by linarith [hθ.1, Real.pi_pos], hθ.2⟩
  exact ((Real.hasDerivAt_tan (ne_of_gt hcos)).const_mul _).hasDerivWithinAt

lemma injOn_sqrt_tan {ν : ℝ} (hν : 0 < ν) :
    Set.InjOn (fun θ : ℝ => Real.sqrt ν * Real.tan θ) (Set.Ioo 0 (Real.pi / 2)) := by
  have hs : (0 : ℝ) < Real.sqrt ν := Real.sqrt_pos.mpr hν
  intro a ha b hb hab
  have ha' : a ∈ Set.Ioo (-(Real.pi / 2)) (Real.pi / 2) :=
    ⟨by linarith [ha.1, Real.pi_pos], ha.2⟩
  have hb' : b ∈ Set.Ioo (-(Real.pi / 2)) (Real.pi / 2) :=
    ⟨by linarith [hb.1, Real.pi_pos], hb.2⟩
  exact Real.injOn_tan ha' hb' (mul_left_cancel₀ (ne_of_gt hs) hab)

/-- Pointwise form of the substituted integrand `x = √ν tan θ`. -/
lemma abs_deriv_smul_density (k : ℕ) :
    ∀ θ ∈ Set.Ioo (0 : ℝ) (Real.pi / 2),
      |Real.sqrt ((k : ℝ) + 1) * (1 / Real.cos θ ^ 2)| •
          StudentTTest.studentTDensity ((k : ℝ) + 1)
            (Real.sqrt ((k : ℝ) + 1) * Real.tan θ) =
        Real.Gamma ((((k : ℝ) + 1) + 1) / 2) /
            (Real.sqrt (((k : ℝ) + 1) * Real.pi) * Real.Gamma (((k : ℝ) + 1) / 2)) *
          Real.sqrt ((k : ℝ) + 1) * Real.cos θ ^ k := by
  intro θ hθ
  have hν : (0 : ℝ) < (k : ℝ) + 1 := by positivity
  have hcos : 0 < Real.cos θ :=
    Real.cos_pos_of_mem_Ioo ⟨by linarith [hθ.1, Real.pi_pos], hθ.2⟩
  have hcosne : Real.cos θ ≠ 0 := ne_of_gt hcos
  have htan : 1 + Real.tan θ ^ 2 = (Real.cos θ ^ 2)⁻¹ := by
    rw [← Real.inv_one_add_tan_sq hcosne, inv_inv]
  unfold StudentTTest.studentTDensity
  have h1 : 1 + (Real.sqrt ((k : ℝ) + 1) * Real.tan θ) ^ 2 / ((k : ℝ) + 1) =
      (Real.cos θ ^ 2)⁻¹ := by
    rw [mul_pow, Real.sq_sqrt hν.le, mul_div_cancel_left₀ _ (ne_of_gt hν), htan]
  rw [h1]
  have h2 : ((Real.cos θ ^ 2 : ℝ)⁻¹) ^ (-((((k : ℝ) + 1) + 1) / 2)) =
      Real.cos θ ^ (k + 2) := by
    calc ((Real.cos θ ^ 2 : ℝ)⁻¹) ^ (-((((k : ℝ) + 1) + 1) / 2))
        = ((Real.cos θ ^ 2 : ℝ) ^ (-((((k : ℝ) + 1) + 1) / 2)))⁻¹ :=
          Real.inv_rpow (by positivity) _
      _ = (((Real.cos θ ^ 2 : ℝ) ^ ((((k : ℝ) + 1) + 1) / 2))⁻¹)⁻¹ := by
          rw [Real.rpow_neg (by positivity)]
      _ = (Real.cos θ ^ 2 : ℝ) ^ ((((k : ℝ) + 1) + 1) / 2) := inv_inv _
      _ = (Real.cos θ ^ ((2 : ℕ) : ℝ)) ^ ((((k : ℝ) + 1) + 1) / 2) := by
          rw [Real.rpow_natCast]
      _ = Real.cos θ ^ (((2 : ℕ) : ℝ) * ((((k : ℝ) + 1) + 1) / 2)) := by
          rw [← Real.rpow_mul hcos.le]
      _ = Real.cos θ ^ (((k + 2 : ℕ)) : ℝ) := by
          push_cast
          ring_nf
      _ = Real.cos θ ^ (k + 2) := Real.rpow_natCast _ _
  rw [h2, smul_eq_mul, abs_of_nonneg (by positivity)]
  rw [pow_add]
  field_simp
  ring

/-- Normalization: the t density with `k+1` degrees of freedom integrates to
`1/2` over the positive half-line. -/
lemma integral_Ioi_studentTDensity_nat (k : ℕ) :
    ∫ x in Set.Ioi (0 : ℝ), StudentTTest.studentTDensity ((k : ℝ) + 1) x = 1 / 2 := by
  have hν : (0 : ℝ) < (k : ℝ) + 1 := by positivity
  have hsub := MeasureTheory.integral_image_eq_integral_abs_deriv_smul measurableSet_Ioo
    hasDerivWithinAt_sqrt_tan (injOn_sqrt_tan hν)
    (StudentTTest.studentTDensity ((k : ℝ) + 1))
  rw [image_sqrt_tan hν] at hsub
  rw [hsub, MeasureTheory.setIntegral_congr_fun measurableSet_Ioo (abs_deriv_smul_density k)]
  rw [← MeasureTheory.integral_Ioc_eq_integral_Ioo,
    ← intervalIntegral.integral_of_le (by positivity : (0 : ℝ) ≤ Real.pi / 2)]
  rw [intervalIntegral.integral_const_mul, integral_cos_pow_eq_gamma k]
  rw [Real.sqrt_mul hν.le]
  have hΓ1 : Real.Gamma (((k : ℝ) + 1) / 2) ≠ 0 :=
    ne_of_gt (Real.Gamma_pos_of_pos (by positivity))
  have hΓ2 : Real.Gamma ((k : ℝ) / 2 + 1) ≠ 0 :=
    ne_of_gt (Real.Gamma_pos_of_pos (by positivity))
  have hπs : Real.sqrt Real.pi ≠ 0 := ne_of_gt (Real.sqrt_pos.mpr Real.pi_pos)
  have hνs : Real.sqrt ((k : ℝ) + 1) ≠ 0 := ne_of_gt (Real.sqrt_pos.mpr hν)
  rw [show (((k : ℝ) + 1) + 1) / 2 = (k : ℝ) / 2 + 1 by ring]
  field_simp
  ring

lemma integrableOn_studentTDensity_Ioi_zero (k : ℕ) :
    MeasureTheory.IntegrableOn (StudentTTest.studentTDensity ((k : ℝ) + 1))
      (Set.Ioi 0) := by
  have hν : (0 : ℝ) < (k : ℝ) + 1 := by positivity
  rw [← image_sqrt_tan hν]
  rw [MeasureTheory.integrableOn_image_iff_integrableOn_abs_deriv_smul measurableSet_Ioo
    hasDerivWithinAt_sqrt_tan (injOn_sqrt_tan hν)]
  have hint : MeasureTheory.IntegrableOn (fun θ : ℝ =>
      Real.Gamma ((((k : ℝ) + 1) + 1) / 2) /
          (Real.sqrt (((k : ℝ) + 1) * Real.pi) * Real.Gamma (((k : ℝ) + 1) / 2)) *
        Real.sqrt ((k : ℝ) + 1) * Real.cos θ ^ k) (Set.Ioo 0 (Real.pi / 2)) := by
    have hc : Continuous (fun θ : ℝ =>
        Real.Gamma ((((k : ℝ) + 1) + 1) / 2) /
            (Real.sqrt (((k : ℝ) + 1) * Real.pi) * Real.Gamma (((k : ℝ) + 1) / 2)) *
          Real.sqrt ((k : ℝ) + 1) * Real.cos θ ^ k) :=
      continuous_const.mul (Real.continuous_cos.pow k)
    exact hc.integrableOn_Icc.mono_set Set.Ioo_subset_Icc_self
  exact hint.congr_fun (fun θ hθ => (abs_deriv_smul_density k θ hθ).symm) measurableSet_Ioo

/-- For `c ≥ 0` the two-sided p-value is `1 − 2∫₀ᶜ f`. -/
lemma studentTPValue_nonneg_eq (k : ℕ) {c : ℝ} (hc : 0 ≤ c) :
    StudentTTest.studentTPValue ((k : ℝ) + 1) c =
      1 - 2 * ∫ x in (0 : ℝ)..c, StudentTTest.studentTDensity ((k : ℝ) + 1) x := by
  rw [StudentTTest.studentTPValue, abs_of_nonneg hc]
  have hint := integrableOn_studentTDensity_Ioi_zero k
  have h1 : MeasureTheory.IntegrableOn (StudentTTest.studentTDensity ((k : ℝ) + 1))
      (Set.Ioc 0 c) := hint.mono_set Set.Ioc_subset_Ioi_self
  have h2 : MeasureTheory.IntegrableOn (StudentTTest.studentTDensity ((k : ℝ) + 1))
      (Set.Ioi c) := hint.mono_set (Set.Ioi_subset_Ioi hc)
  have hunion := MeasureTheory.setIntegral_union Set.Ioc_disjoint_Ioi_same
    measurableSet_Ioi h1 h2
  rw [Set.Ioc_union_Ioi_eq_Ioi hc, integral_Ioi_studentTDensity_nat k] at hunion
  rw [intervalIntegral.integral_of_le hc]
  linarith

/-- The two-sided critical value of the t-distribution is strictly positive
for every `α` strictly between 0 and 1. -/
lemma criticalT_pos (k : ℕ) {α : ℝ} (hα0 : 0 < α) (hα1 : α < 1) :
    0 < StudentTTest.criticalT ((k : ℝ) + 1) α := by
  have hν : (0 : ℝ) < (k : ℝ) + 1 := by positivity
  have hcont := continuous_studentTDensity hν
  have hint := integrableOn_studentTDensity_Ioi_zero k
  set prim : ℝ → ℝ :=
    fun c => ∫ x in (0 : ℝ)..c, StudentTTest.studentTDensity ((k : ℝ) + 1) x with hprimdef
  have hprimc : Continuous prim :=
    intervalIntegral.continuous_primitive (fun a b => hcont.intervalIntegrable a b) 0
  have htend : Filter.Tendsto prim Filter.atTop (nhds (1 / 2)) := by
    have h := MeasureTheory.intervalIntegral_tendsto_integral_Ioi 0 hint Filter.tendsto_id
    rwa [integral_Ioi_studentTDensity_nat k] at h
  have hne : ∃ c : ℝ, (0 ≤ c ∧ StudentTTest.studentTPValue ((k : ℝ) + 1) c ≤ α) := by
    have hev : ∀ᶠ c in Filter.atTop, (1 - α) / 2 < prim c :=
      htend.eventually (eventually_gt_nhds (by linarith))
    obtain ⟨c, hc⟩ := (hev.and (Filter.eventually_ge_atTop (0 : ℝ))).exists
    refine ⟨c, hc.2, ?_⟩
    rw [studentTPValue_nonneg_eq k hc.2]
    linarith [hc.1]
  have hprim0 : prim 0 = 0 := intervalIntegral.integral_same
  have htend0 : Filter.Tendsto prim (nhds 0) (nhds 0) := by
    have h : ContinuousAt prim 0 := hprimc.continuousAt
    rwa [ContinuousAt, hprim0] at h
  have hev0 : ∀ᶠ c in nhds (0 : ℝ), prim c < (1 - α) / 2 :=
    htend0.eventually (eventually_lt_nhds (by linarith))
  obtain ⟨δ, hδpos, hδ⟩ := Metric.eventually_nhds_iff.mp hev0
  have hlb : ∀ c ∈ {c : ℝ | 0 ≤ c ∧ StudentTTest.studentTPValue ((k : ℝ) + 1) c ≤ α},
      δ ≤ c := by
    rintro c ⟨hc0, hcα⟩
    by_contra hlt
    push_neg at hlt
    have hdist : dist c 0 < δ := by
      rw [Real.dist_eq, sub_zero, abs_of_nonneg hc0]
      exact hlt
    have hp := hδ hdist
    rw [studentTPValue_nonneg_eq k hc0] at hcα
    have : prim c = ∫ x in (0 : ℝ)..c, StudentTTest.studentTDensity ((k : ℝ) + 1) x := rfl
    linarith [hp, hcα]
  exact lt_of_lt_of_le hδpos (le_csInf hne hlb)

/-- A paired sample of two identical pairs: accepted by the t-test (n = 2)
but with sample variance exactly 0. -/
def constPairs : List (ℝ × ℝ) := [(1, 1), (1, 1)]

lemma constPairs_variance : StudentTTest.variance constPairs = 0 := by
  norm_num [StudentTTest.variance, StudentTTest.mean, meanDiff, constPairs]

/-- **C4, counterexample.** On a zero-variance sample the t-test accepts the
input (n = 2) but `margin_of_error` is 0, not strictly positive, refuting the
claim that the margin of error is strictly positive for every accepted
sample. -/
theorem margin_of_error_zero_variance_counterexample :
    2 ≤ constPairs.length ∧
      StudentTTest.margin_of_error constPairs (1 / 20) = 0 ∧
      ¬ (0 < StudentTTest.margin_of_error constPairs (1 / 20)) := by
  have hm : StudentTTest.margin_of_error constPairs (1 / 20) = 0 := by
    rw [StudentTTest.margin_of_error, constPairs_variance]
    norm_num
  exact ⟨by norm_num [constPairs], hm, by rw [hm]; norm_num⟩

/-- **C4, amended.** For every paired sample accepted by the t-test whose
sample variance is positive and every significance level `0 < α < 1`, the
margin of error equals `critical-t(α, n−1) · √(variance/n)`, it is strictly
positive, and the confidence interval is exactly
`(mean − margin, mean + margin)`. -/
theorem margin_of_error_and_confidence_interval (s : List (ℝ × ℝ)) (α : ℝ)
    (hs : 2 ≤ s.length) (hα0 : 0 < α) (hα1 : α < 1)
    (hv : 0 < StudentTTest.variance s) :
    StudentTTest.margin_of_error s α =
        StudentTTest.criticalT ((s.length : ℝ) - 1) α *
          Real.sqrt (StudentTTest.variance s / s.length) ∧
      0 < StudentTTest.margin_of_error s α ∧
      StudentTTest.confidence_interval s α =
        (StudentTTest.mean s - StudentTTest.margin_of_error s α,
          StudentTTest.mean s + StudentTTest.margin_of_error s α) := by
  refine ⟨rfl, ?_, rfl⟩
  obtain ⟨m, hm⟩ : ∃ m : ℕ, s.length = m + 2 := ⟨s.length - 2, by omega⟩
  have hν : ((s.length : ℝ) - 1) = ((m + 1 : ℕ) : ℝ) := by
    rw [hm]
    push_cast
    ring
  rw [StudentTTest.margin_of_error, hν]
  have hcrit : 0 < StudentTTest.criticalT (((m + 1 : ℕ) : ℝ)) α := by
    have h := criticalT_pos m hα0 hα1
    have hcast : ((m + 1 : ℕ) : ℝ) = (m : ℝ) + 1 := by push_cast; ring
    rwa [hcast]
  apply mul_pos hcrit
  apply Real.sqrt_pos.mpr
  apply div_pos hv
  rw [hm]
  push_cast
  positivity

/-- Witness for the amended C4 at the Sakai fixture with `α = 0.05`. -/
theorem margin_of_error_and_confidence_interval_witness :
    2 ≤ sakai.length ∧ (0 : ℝ) < 1 / 20 ∧ (1 / 20 : ℝ) < 1 ∧
      0 < StudentTTest.variance sakai ∧
      (StudentTTest.margin_of_error sakai (1 / 20) =
          StudentTTest.criticalT ((sakai.length : ℝ) - 1) (1 / 20) *
            Real.sqrt (StudentTTest.variance sakai / sakai.length) ∧
        0 < StudentTTest.margin_of_error sakai (1 / 20) ∧
        StudentTTest.confidence_interval sakai (1 / 20) =
          (StudentTTest.mean sakai - StudentTTest.margin_of_error sakai (1 / 20),
            StudentTTest.mean sakai + StudentTTest.margin_of_error sakai (1 / 20))) :=
  ⟨by rw [sakai_length]; norm_num, by norm_num, by norm_num,
   by rw [sakai_variance]; norm_num,
   margin_of_error_and_confidence_interval sakai (1 / 20)
     (by rw [sakai_length]; norm_num) (by norm_num) (by norm_num)
     (by rw [sakai_variance]; norm_num)⟩

end Elinor
